import Mathlib

/-!
Shallow embedding of the dogen artifact pipeline (src/dogen/tools.py):
artifact construction, cache URL generation, checksum verification,
fetching, directory cleanup and descriptor loading.  External effects
(the file system, HTTP, hashing by hashlib) are passed in explicitly:
a file map from paths to byte lists, an HTTP oracle from URLs to
responses, and a digest oracle from algorithm names and contents to hex
strings.  Errors reproduce the raise sites of the source: every
`DogenError` carries its exact message, and the Python `AttributeError`
on a never-assigned attribute is a distinct constructor.
-/

namespace Dogen

/-- Error values observable from the embedded code.  `dogenError` is a
`DogenError(msg)` raise; `dogenError2` is the two-argument
`DogenError(msg, ex)` used when wrapping validator failures;
`attributeError` models Python raising `AttributeError` on access to an
instance attribute that was never assigned; `ioError` models `open`
failing on a missing file. -/
inductive PyError where
  | dogenError (msg : String)
  | dogenError2 (msg : String) (inner : String)
  | attributeError (attr : String)
  | ioError (path : String)
deriving Repr, DecidableEq

/-- The file system as seen by the artifact code: an association list
from path strings to byte contents; the most recent write shadows
earlier entries. -/
abbrev FileMap := List (String × List Nat)

/-- Models `open(path, "wb")` followed by writing `c`: the new entry shadows
any earlier one. -/
def FileMap.write (fs : FileMap) (p : String) (c : List Nat) : FileMap :=
  (p, c) :: fs

/-- Models `os.path.join` restricted to the shapes used by tools.py: joining an
empty left component yields the right one, an absolute right component
wins, otherwise the two are joined with a separator. -/
def pathJoin (a b : String) : String :=
  if a = "" then b
  else if b.data.take 1 = ['/'] then b
  else if a.data.getLast? = some '/' then a ++ b
  else a ++ "/" ++ b

/-- The list `SUPPORTED_HASH_ALGORITHMS` of tools.py line 14: sha256,
sha1 and md5, in that order. -/
def SUPPORTED_HASH_ALGORITHMS : List String := ["sha256", "sha1", "md5"]

/-- The descriptor entry handed to `Artifact.__init__`: the mandatory
`artifact` and `name` keys, plus the remaining keys of the dict (in
particular any checksum entries, supported or not) as an association
list. -/
structure ArtifactDict where
  artifact : String
  name : String
  extra : List (String × String)
deriving Repr, DecidableEq

/-- The `Artifact` instance state.  `url` is `none` while the Python
attribute `self.url` has never been assigned. -/
structure Artifact where
  artifact : String
  name : String
  sums : List (String × String)
  filename : String
  url : Option String
deriving Repr, DecidableEq

/-- Embeds `Artifact.__init__` (tools.py lines 24-31): copies `artifact` and
`name`, sets `filename`, and keeps exactly the checksum entries whose
key is in `SUPPORTED_HASH_ALGORITHMS`, in that fixed order. -/
def Artifact.init (target_dir : String) (d : ArtifactDict) : Artifact :=
  { artifact := d.artifact
    name := d.name
    sums := SUPPORTED_HASH_ALGORITHMS.filterMap
      (fun alg => (d.extra.lookup alg).map (fun v => (alg, v)))
    filename := pathJoin target_dir d.name
    url := none }

/-- Yields `some rest` when `pat` is a leading piece of `s`, with `rest` the
remainder after it. -/
def dropPfx : List Char → List Char → Option (List Char)
  | [], s => some s
  | _ :: _, [] => none
  | p :: ps, c :: cs => if p = c then dropPfx ps cs else none

/-- Fuelled core of string replacement: scan left to right, replace
each non-overlapping occurrence of `pat` by `rep`.  With fuel at least
the length of the scanned list and a non-empty `pat`, this is exactly
Python `str.replace`. -/
def replaceFuel (pat rep : List Char) : Nat → List Char → List Char
  | _, [] => []
  | 0, s => s
  | fuel + 1, c :: cs =>
    match dropPfx pat (c :: cs) with
    | some rest => rep ++ replaceFuel pat rep fuel rest
    | none => c :: replaceFuel pat rep fuel cs

/-- Python `s.replace(pat, rep)` for the non-empty literal patterns
used by `_generate_url`: every non-overlapping occurrence, left to
right. -/
def strReplace (s pat rep : String) : String :=
  ⟨replaceFuel pat.data rep.data s.data.length s.data⟩

/-- The `for alg in SUPPORTED_HASH_ALGORITHMS: if alg in self.sums`
loop with `break` of `_generate_url`: the first algorithm of the
priority list that has an entry in `sums`, with its digest. -/
def firstSupportedSum (sums : List (String × String)) : List String → Option (String × String)
  | [] => none
  | alg :: rest =>
    match sums.lookup alg with
    | some v => some (alg, v)
    | none => firstSupportedSum sums rest

/-- Embeds `Artifact._generate_url` (tools.py lines 33-53).  `cache` is the
value of the `DOGEN_ARTIFACT_CACHE` environment variable, `""` when
unset.  With no cache, `self.url` becomes the declared source URL; with
a cache, the first supported algorithm present in `sums` drives the
placeholder substitution; with a cache but no supported checksum the
loop never assigns and `url` is left as it was. -/
def Artifact.generate_url (cache : String) (a : Artifact) : Artifact :=
  if cache = "" then { a with url := some a.artifact }
  else
    match firstSupportedSum a.sums SUPPORTED_HASH_ALGORITHMS with
    | some (alg, v) =>
        { a with url := some (strReplace (strReplace (strReplace cache
            "#filename#" a.name) "#algorithm#" alg) "#hash#" v) }
    | none => a

/-- ASCII lowercasing of one character: Python `str.lower` restricted
to the hex-digest alphabet the comparison runs on. -/
def charLower (ch : Char) : Char :=
  if 'A' ≤ ch ∧ ch ≤ 'Z' then Char.ofNat (ch.toNat + 32) else ch

/-- Python `s.lower()` for the ASCII hex digest strings compared by
`_check_sum`. -/
def strLower (s : String) : String := ⟨s.data.map charLower⟩

/-- The message of the `DogenError` raised on a checksum mismatch
(tools.py lines 81-82). -/
def integrityMsg (algorithm name chksum expected : String) : String :=
  "The " ++ algorithm ++ " computed for the \x27" ++ name ++ "\x27 file (\x27" ++
    chksum ++ "\x27) doesn\x27t match the \x27" ++ expected ++ "\x27 value"

/-- Embeds `Artifact._check_sum` (tools.py lines 63-84): reads the file at
`self.filename`, lets the digest oracle `hashOf` stand for the chunked
hashlib computation, and compares hex digests case-insensitively. -/
def Artifact.check_sum (hashOf : String → List Nat → String) (fs : FileMap)
    (a : Artifact) (algorithm expected_chksum : String) : Except PyError Unit :=
  match fs.lookup a.filename with
  | none => .error (.ioError a.filename)
  | some content =>
    let chksum := hashOf algorithm content
    if strLower chksum ≠ strLower expected_chksum then
      .error (.dogenError (integrityMsg algorithm a.name chksum expected_chksum))
    else .ok ()

/-- The `for algorithm, chksum in self.sums.items()` loop of `verify`:
checks entries in order, stops at the first failure, and counts how
many `_check_sum` calls were made. -/
def verifyLoop (hashOf : String → List Nat → String) (fs : FileMap)
    (a : Artifact) : List (String × String) → (Except PyError Unit) × Nat
  | [] => (.ok (), 0)
  | (alg, s) :: rest =>
    match a.check_sum hashOf fs alg s with
    | .error e => (.error e, 1)
    | .ok () =>
      let r := verifyLoop hashOf fs a rest
      (r.1, r.2 + 1)

/-- Embeds `Artifact.verify` (tools.py lines 55-61): a no-op returning `True`
when `check_integrity` is off, otherwise one `_check_sum` per entry of
`sums`, returning `True` when all pass.  The second component counts
the checks performed. -/
def Artifact.verify (check_integrity : Bool) (hashOf : String → List Nat → String)
    (fs : FileMap) (a : Artifact) : (Except PyError Bool) × Nat :=
  if check_integrity = false then (.ok true, 0)
  else
    let r := verifyLoop hashOf fs a a.sums
    (r.1.map (fun _ => true), r.2)

/-- An HTTP response: status code and the concatenation of the chunks
`iter_content` yields. -/
structure HttpResponse where
  status_code : Nat
  content : List Nat
deriving Repr, DecidableEq

/-- Result of `Artifact.fetch`: the returned artifact or the raised
error, the file system afterwards, and how many `requests.get` calls
were made. -/
structure FetchResult where
  outcome : Except PyError Artifact
  fs : FileMap
  network : Nat
deriving Repr

/-- Embeds `Artifact.fetch` (tools.py lines 86-103): regenerates the URL,
returns at once when the destination already exists, otherwise reads
`self.url` (an `AttributeError` when it was never assigned), performs
the GET, raises on a non-200 status, and writes the body to the
destination. -/
def Artifact.fetch (cache target_dir : String) (http : String → HttpResponse)
    (fs : FileMap) (a : Artifact) : FetchResult :=
  let a1 := a.generate_url cache
  let destination := pathJoin target_dir a1.name
  if (fs.lookup destination).isSome then
    { outcome := .ok a1, fs := fs, network := 0 }
  else
    match a1.url with
    | none => { outcome := .error (.attributeError "url"), fs := fs, network := 0 }
    | some url =>
      let res := http url
      if res.status_code ≠ 200 then
        { outcome := .error (.dogenError ("Could not download file from " ++ url))
          fs := fs, network := 1 }
      else
        { outcome := .ok a1, fs := fs.write destination res.content, network := 1 }

/-- Result of a fetch followed by the orchestrated verification:
outcome, file system, network calls, checksum checks performed. -/
structure FetchVerifyResult where
  outcome : Except PyError Bool
  fs : FileMap
  network : Nat
  checks : Nat
deriving Repr

/-- Modelled from the spec: the orchestrator (generator.py, not under
src/) invokes `verify()` on an artifact after `fetch()`; after a fresh
download every declared checksum is checked, while the
already-on-disk fast path skips re-verification. -/
def fetch_and_verify (cache target_dir : String) (check_integrity : Bool)
    (hashOf : String → List Nat → String) (http : String → HttpResponse)
    (fs : FileMap) (a : Artifact) : FetchVerifyResult :=
  let fresh := (fs.lookup (pathJoin target_dir a.name)).isNone
  match a.fetch cache target_dir http fs with
  | { outcome := .ok a1, fs := fs1, network := n } =>
    if fresh then
      let v := a1.verify check_integrity hashOf fs1
      { outcome := v.1, fs := fs1, network := n, checks := v.2 }
    else { outcome := .ok true, fs := fs1, network := n, checks := 0 }
  | { outcome := .error e, fs := fs1, network := n } =>
    { outcome := .error e, fs := fs1, network := n, checks := 0 }

/-- A path as its sequence of components, so that `os.path.join` of
components is list append and "lies in the subtree rooted at `d`" is a
component-wise prefix test. -/
abbrev Path := List String

/-- The set of paths that exist on disk, for the directory-tree
operations of tools.py. -/
abbrev PathSet := List Path

/-- Holds when `p` lies in the subtree rooted at `d` (including `d` itself):
component-wise prefix. -/
def isUnder : Path → Path → Bool
  | [], _ => true
  | _ :: _, [] => false
  | x :: xs, y :: ys => x == y && isUnder xs ys

/-- Models `shutil.rmtree(d)`: removes `d` and everything below it. -/
def rmtree (fs : PathSet) (d : Path) : PathSet :=
  fs.filter (fun p => !(isUnder d p))

/-- The `dirs_to_clean` list of `cleanup` (tools.py lines 126-128). -/
def dirs_to_clean (target : Path) : List Path :=
  [target ++ ["image", "modules"], target ++ ["image", "repos"], target ++ ["repo"]]

/-- Embeds `cleanup` (tools.py lines 124-132): for each of the three
directories, remove its subtree when the directory exists. -/
def cleanup (fs : PathSet) (target : Path) : PathSet :=
  (dirs_to_clean target).foldl
    (fun acc d => if d ∈ acc then rmtree acc d else acc) fs

/-- Embeds `load_descriptor` (tools.py lines 135-169) over an abstract type
`Y` of parsed YAML values.  `yfs` maps a path to its parsed content
when the file exists; `dirname` is `os.path.dirname(__file__)`;
`validate` is the pykwalify `Core(...).validate` call, its failures
carrying the raw validator message. -/
def load_descriptor (Y : Type) (yfs : List (String × Y)) (dirname : String)
    (validate : Y → Y → Except String Y)
    (descriptor_path schema_type : String) : Except PyError Y :=
  let schema_name := schema_type ++ "_schema.yaml"
  let schema_path := pathJoin (pathJoin dirname "schema") schema_name
  match yfs.lookup schema_path with
  | none => .error (.dogenError ("Cannot locate schema for " ++ schema_type ++ "."))
  | some schema =>
    match yfs.lookup descriptor_path with
    | none => .error (.dogenError "Cannot find provided descriptor file")
    | some descriptor =>
      match validate descriptor schema with
      | .ok v => .ok v
      | .error ex => .error (.dogenError2 "Cannot validate schema" ex)

/-- A piece of a descriptor string value: either literal text or a
placeholder with a name and an optional inline default. -/
inductive Segment where
  | lit (s : String)
  | hole (name : String) (dflt : Option String)
deriving Repr, DecidableEq

/-- Modelled from the spec: the SubstitutionEngine lives in
generator.py, which is not under src/.  A placeholder resolves to the
override value when one is supplied for its name, else to its inline
default, else it fails. -/
def resolveSegment (overrides : List (String × String)) : Segment → Option String
  | .lit s => some s
  | .hole name dflt =>
    match overrides.lookup name with
    | some v => some v
    | none => dflt

/-- Modelled from the spec: resolving a whole string value resolves
each of its segments and concatenates; an unresolved required
placeholder fails the whole resolution. -/
def resolve (overrides : List (String × String)) : List Segment → Option String
  | [] => some ""
  | seg :: rest =>
    match resolveSegment overrides seg, resolve overrides rest with
    | some s, some t => some (s ++ t)
    | _, _ => none

/-! Helper lemmas shared by the claim theorems. -/

/-- Helper: `_generate_url` only ever assigns `self.url`: name, sums and
filename are untouched. -/
theorem generate_url_fields (cache : String) (a : Artifact) :
    (a.generate_url cache).name = a.name ∧ (a.generate_url cache).sums = a.sums ∧
      (a.generate_url cache).filename = a.filename := by
  unfold Artifact.generate_url
  by_cases h : cache = ""
  · simp [h]
  · simp only [h, if_false]
    rcases hfs : firstSupportedSum a.sums SUPPORTED_HASH_ALGORITHMS with _ | ⟨alg, v⟩ <;>
      simp [hfs]

/-! Claim theorems. -/

/-- C4: with a configured cache pattern and at least one declared
checksum, the fetch URL is the pattern with `#filename#`, `#algorithm#`
and `#hash#` substituted, the algorithm being the first hit of the
fixed priority order sha256, sha1, md5; with no cache pattern the
declared source URL is used verbatim. -/
theorem generate_url_cache_pattern_resolution (cache : String) (a : Artifact) :
    (cache = "" → (a.generate_url cache).url = some a.artifact)
    ∧ (∀ v, a.sums.lookup "sha256" = some v →
        firstSupportedSum a.sums SUPPORTED_HASH_ALGORITHMS = some ("sha256", v))
    ∧ (∀ v, a.sums.lookup "sha256" = none → a.sums.lookup "sha1" = some v →
        firstSupportedSum a.sums SUPPORTED_HASH_ALGORITHMS = some ("sha1", v))
    ∧ (∀ v, a.sums.lookup "sha256" = none → a.sums.lookup "sha1" = none →
        a.sums.lookup "md5" = some v →
        firstSupportedSum a.sums SUPPORTED_HASH_ALGORITHMS = some ("md5", v))
    ∧ (cache ≠ "" → ∀ alg v,
        firstSupportedSum a.sums SUPPORTED_HASH_ALGORITHMS = some (alg, v) →
        (a.generate_url cache).url = some (strReplace (strReplace (strReplace cache
          "#filename#" a.name) "#algorithm#" alg) "#hash#" v)) := by
  refine ⟨fun h => by simp [Artifact.generate_url, h], ?_, ?_, ?_, ?_⟩
  · intro v h
    simp [firstSupportedSum, SUPPORTED_HASH_ALGORITHMS, h]
  · intro v h256 h1
    simp [firstSupportedSum, SUPPORTED_HASH_ALGORITHMS, h256, h1]
  · intro v h256 h1 h5
    simp [firstSupportedSum, SUPPORTED_HASH_ALGORITHMS, h256, h1, h5]
  · intro hc alg v hfs
    simp [Artifact.generate_url, hc, hfs]

/-- A concrete descriptor entry used to instantiate the theorems: an
sha1 and an md5 checksum plus an unsupported `foo` key. -/
def sampleDict : ArtifactDict :=
  { artifact := "http://x/a.tar", name := "a.tar"
    extra := [("md5", "AB"), ("foo", "zz"), ("sha1", "CD")] }

/-- The artifact built from `sampleDict` with target directory `t`. -/
def sampleArtifact : Artifact := Artifact.init "t" sampleDict

/-- C4 witness: the sample artifact resolved against a concrete cache
pattern picks sha1 (no sha256 declared) and substitutes all three
placeholders. -/
theorem generate_url_cache_pattern_resolution_witness :
    (sampleArtifact.generate_url "http://cache/#algorithm#/#hash#/#filename#").url =
      some "http://cache/sha1/CD/a.tar" := by
  have h := generate_url_cache_pattern_resolution
    "http://cache/#algorithm#/#hash#/#filename#" sampleArtifact
  have hfs := h.2.2.1 "CD" (by decide) (by decide)
  exact (h.2.2.2.2 (by decide) "sha1" "CD" hfs).trans (by decide)

/-- C10: `Artifact.__init__` records exactly the checksum entries whose
algorithm is one of sha256, sha1, md5; every entry of `sums` comes from
the descriptor dict with a supported key, supported keys are copied
verbatim, and an unsupported key never reaches `sums`. -/
theorem init_keeps_only_supported_checksums (target_dir : String) (d : ArtifactDict) :
    (∀ p ∈ (Artifact.init target_dir d).sums,
        p.1 ∈ SUPPORTED_HASH_ALGORITHMS ∧ d.extra.lookup p.1 = some p.2)
    ∧ (∀ alg ∈ SUPPORTED_HASH_ALGORITHMS,
        (Artifact.init target_dir d).sums.lookup alg = d.extra.lookup alg)
    ∧ (∀ alg, alg ∉ SUPPORTED_HASH_ALGORITHMS →
        (Artifact.init target_dir d).sums.lookup alg = none) := by
  refine ⟨?_, ?_, ?_⟩
  · intro p hp
    rw [Artifact.init] at hp
    simp only [List.mem_filterMap] at hp
    obtain ⟨alg, halg, hf⟩ := hp
    rcases hl : d.extra.lookup alg with _ | v <;> rw [hl] at hf
    · exact Option.noConfusion hf
    · cases hf
      exact ⟨halg, hl⟩
  · intro alg halg
    simp only [SUPPORTED_HASH_ALGORITHMS, List.mem_cons, List.mem_singleton,
      List.not_mem_nil, or_false] at halg
    rcases h256 : d.extra.lookup "sha256" with _ | v256 <;>
      rcases h1 : d.extra.lookup "sha1" with _ | v1 <;>
        rcases h5 : d.extra.lookup "md5" with _ | v5 <;>
          rcases halg with rfl | rfl | rfl <;>
            simp [Artifact.init, SUPPORTED_HASH_ALGORITHMS, h256, h1, h5, List.lookup]
  · intro alg halg
    simp only [SUPPORTED_HASH_ALGORITHMS, List.mem_cons, List.mem_singleton,
      List.not_mem_nil, or_false, not_or] at halg
    have e256 : (alg == "sha256") = false := beq_eq_false_iff_ne.mpr halg.1
    have e1 : (alg == "sha1") = false := beq_eq_false_iff_ne.mpr halg.2.1
    have e5 : (alg == "md5") = false := beq_eq_false_iff_ne.mpr halg.2.2
    rcases h256 : d.extra.lookup "sha256" with _ | v256 <;>
      rcases h1 : d.extra.lookup "sha1" with _ | v1 <;>
        rcases h5 : d.extra.lookup "md5" with _ | v5 <;>
          simp [Artifact.init, SUPPORTED_HASH_ALGORITHMS, h256, h1, h5, List.lookup,
            e256, e1, e5]

/-- C10 witness: the sample descriptor entry with its unsupported `foo`
key keeps only the sha1 and md5 entries, and `foo` is never in
`sums`. -/
theorem init_keeps_only_supported_checksums_witness :
    (∀ p ∈ (Artifact.init "t" sampleDict).sums, p.1 ∈ SUPPORTED_HASH_ALGORITHMS) ∧
    (Artifact.init "t" sampleDict).sums.lookup "foo" = none := by
  have h := init_keeps_only_supported_checksums "t" sampleDict
  exact ⟨fun p hp => (h.1 p hp).1, h.2.2 "foo" (by decide)⟩

/-- C9: with a cache pattern configured but no checksum declared for
any supported algorithm, `_generate_url` leaves `url` unassigned, and a
fetch of a not-yet-present artifact raises an attribute access error
with zero network calls. -/
theorem fetch_cache_without_checksums_attribute_error (cache target_dir : String)
    (http : String → HttpResponse) (fs : FileMap) (a : Artifact)
    (hcache : cache ≠ "")
    (hnosum : ∀ alg ∈ SUPPORTED_HASH_ALGORITHMS, a.sums.lookup alg = none)
    (hurl : a.url = none)
    (habsent : fs.lookup (pathJoin target_dir a.name) = none) :
    (a.generate_url cache).url = none
    ∧ a.fetch cache target_dir http fs =
        { outcome := .error (.attributeError "url"), fs := fs, network := 0 } := by
  have hfs : firstSupportedSum a.sums SUPPORTED_HASH_ALGORITHMS = none := by
    simp [firstSupportedSum, SUPPORTED_HASH_ALGORITHMS,
      hnosum "sha256" (by decide), hnosum "sha1" (by decide), hnosum "md5" (by decide)]
  have hgen : a.generate_url cache = a := by
    simp [Artifact.generate_url, hcache, hfs]
  refine ⟨by rw [hgen]; exact hurl, ?_⟩
  simp [Artifact.fetch, hgen, habsent, hurl]

/-- A descriptor entry declaring no supported checksum at all. -/
def noSumDict : ArtifactDict :=
  { artifact := "u", name := "n", extra := [("foo", "zz")] }

/-- C9 witness: a concrete artifact whose only extra key is
unsupported, fetched through a cache pattern into an empty file
system. -/
theorem fetch_cache_without_checksums_attribute_error_witness :
    ((Artifact.init "t" noSumDict).fetch "http://cache/#hash#" "t"
        (fun _ => { status_code := 200, content := [] }) []) =
      { outcome := .error (.attributeError "url"), fs := [], network := 0 } :=
  (fetch_cache_without_checksums_attribute_error "http://cache/#hash#" "t"
    (fun _ => { status_code := 200, content := [] }) [] (Artifact.init "t" noSumDict)
    (by decide) (by decide) (by decide) (by decide)).2

/-- C7: on a fresh download, a non-200 status raises a `DogenError`
whose message carries the resolved source URL, the file system is left
unchanged (nothing written to the destination), after the single GET
call. -/
theorem fetch_non_success_status_raises_with_url (cache target_dir : String)
    (http : String → HttpResponse) (fs : FileMap) (a : Artifact) (u : String)
    (habsent : fs.lookup (pathJoin target_dir a.name) = none)
    (hurl : (a.generate_url cache).url = some u)
    (hstatus : (http u).status_code ≠ 200) :
    a.fetch cache target_dir http fs =
      { outcome := .error (.dogenError ("Could not download file from " ++ u))
        fs := fs, network := 1 } := by
  have hname := (generate_url_fields cache a).1
  simp [Artifact.fetch, hname, habsent, hurl, hstatus]

/-- C7 witness: the sample artifact against a server answering 404:
the error message names the URL and nothing is written. -/
theorem fetch_non_success_status_raises_with_url_witness :
    sampleArtifact.fetch "" "t" (fun _ => { status_code := 404, content := [] }) [] =
      { outcome := .error (.dogenError "Could not download file from http://x/a.tar")
        fs := [], network := 1 } :=
  fetch_non_success_status_raises_with_url "" "t"
    (fun _ => { status_code := 404, content := [] }) [] sampleArtifact "http://x/a.tar"
    (by decide) (by decide) (by decide)

/-- C2: when the destination file already exists, fetch returns at
once: no network call, the file system unchanged, and the orchestrated
fetch-then-verify performs zero checksum checks. -/
theorem fetch_existing_destination_fast_path (cache target_dir : String) (ci : Bool)
    (hashOf : String → List Nat → String) (http : String → HttpResponse)
    (fs : FileMap) (a : Artifact) (c : List Nat)
    (hexists : fs.lookup (pathJoin target_dir a.name) = some c) :
    a.fetch cache target_dir http fs =
      { outcome := .ok (a.generate_url cache), fs := fs, network := 0 }
    ∧ fetch_and_verify cache target_dir ci hashOf http fs a =
      { outcome := .ok true, fs := fs, network := 0, checks := 0 } := by
  have hname := (generate_url_fields cache a).1
  have hf : a.fetch cache target_dir http fs =
      { outcome := .ok (a.generate_url cache), fs := fs, network := 0 } := by
    simp [Artifact.fetch, hname, hexists]
  exact ⟨hf, by simp [fetch_and_verify, hf, hexists]⟩

/-- C2 witness: the sample artifact with its destination already on
disk; the HTTP oracle is never consulted. -/
theorem fetch_existing_destination_fast_path_witness :
    fetch_and_verify "" "t" true (fun _ _ => "ff")
        (fun _ => { status_code := 200, content := [1] }) [("t/a.tar", [9])]
        sampleArtifact =
      { outcome := .ok true, fs := [("t/a.tar", [9])], network := 0, checks := 0 } :=
  (fetch_existing_destination_fast_path "" "t" true (fun _ _ => "ff")
    (fun _ => { status_code := 200, content := [1] }) [("t/a.tar", [9])]
    sampleArtifact [9] (by decide)).2

/-- C6: `load_descriptor` raises a `DogenError` naming the schema type
when the schema resource is missing, raises a `DogenError` when the
descriptor file does not exist, and wraps any validator failure into
the single two-argument `DogenError`, never surfacing the raw
validator error as the result. -/
theorem load_descriptor_failure_modes (Y : Type) (yfs : List (String × Y))
    (dirname : String) (validate : Y → Y → Except String Y)
    (descriptor_path schema_type : String) :
    (yfs.lookup (pathJoin (pathJoin dirname "schema") (schema_type ++ "_schema.yaml")) = none →
      load_descriptor Y yfs dirname validate descriptor_path schema_type =
        .error (.dogenError ("Cannot locate schema for " ++ schema_type ++ ".")))
    ∧ (∀ sch,
        yfs.lookup (pathJoin (pathJoin dirname "schema") (schema_type ++ "_schema.yaml")) = some sch →
        yfs.lookup descriptor_path = none →
        load_descriptor Y yfs dirname validate descriptor_path schema_type =
          .error (.dogenError "Cannot find provided descriptor file"))
    ∧ (∀ sch desc ex,
        yfs.lookup (pathJoin (pathJoin dirname "schema") (schema_type ++ "_schema.yaml")) = some sch →
        yfs.lookup descriptor_path = some desc →
        validate desc sch = .error ex →
        load_descriptor Y yfs dirname validate descriptor_path schema_type =
          .error (.dogenError2 "Cannot validate schema" ex)) := by
  refine ⟨fun h => by simp [load_descriptor, h],
    fun sch h1 h2 => by simp [load_descriptor, h1, h2],
    fun sch desc ex h1 h2 h3 => by simp [load_descriptor, h1, h2, h3]⟩

/-- C6 witness: a concrete schema and descriptor with a failing
validator; the raw message `raw` only appears wrapped. -/
theorem load_descriptor_failure_modes_witness :
    load_descriptor String [("dir/schema/image_schema.yaml", "S"), ("img.yaml", "D")]
        "dir" (fun _ _ => .error "raw") "img.yaml" "image" =
      .error (.dogenError2 "Cannot validate schema" "raw") :=
  (load_descriptor_failure_modes String
    [("dir/schema/image_schema.yaml", "S"), ("img.yaml", "D")] "dir"
    (fun _ _ => .error "raw") "img.yaml" "image").2.2 "S" "D" "raw"
    (by decide) (by decide) rfl

/-- C5: a placeholder with an inline default resolves to the default
when no override is supplied; an override always wins over the inline
default; with neither an override nor an inline default, resolution
fails. -/
theorem placeholder_default_and_override_precedence
    (overrides : List (String × String)) (name dflt : String) :
    (overrides.lookup name = none →
      resolve overrides [Segment.hole name (some dflt)] = some dflt)
    ∧ (∀ v, overrides.lookup name = some v → ∀ dOpt : Option String,
        resolve overrides [Segment.hole name dOpt] = some v)
    ∧ (overrides.lookup name = none →
        resolve overrides [Segment.hole name none] = none) := by
  refine ⟨fun h => by simp [resolve, resolveSegment, h],
    fun v h dOpt => by simp [resolve, resolveSegment, h],
    fun h => by simp [resolve, resolveSegment, h]⟩

/-- C5 witness: the `FROM` placeholder of the test suite, with and
without an override for its inline default `rhel:7`. -/
theorem placeholder_default_and_override_precedence_witness :
    resolve [] [Segment.hole "FROM" (some "rhel:7")] = some "rhel:7"
    ∧ resolve [("FROM", "centos:7")] [Segment.hole "FROM" (some "rhel:7")] =
        some "centos:7"
    ∧ resolve [] [Segment.hole "VERSION" none] = none :=
  ⟨(placeholder_default_and_override_precedence [] "FROM" "rhel:7").1 (by decide),
   (placeholder_default_and_override_precedence [("FROM", "centos:7")] "FROM"
     "rhel:7").2.1 "centos:7" (by decide) (some "rhel:7"),
   (placeholder_default_and_override_precedence [] "VERSION" "x").2.2 (by decide)⟩

/-- One `_check_sum` on a readable file is decided by the
case-insensitive digest comparison. -/
theorem check_sum_cases (hashOf : String → List Nat → String) (fs : FileMap)
    (a : Artifact) (c : List Nat) (hc : fs.lookup a.filename = some c)
    (alg exp : String) :
    a.check_sum hashOf fs alg exp =
      if strLower (hashOf alg c) = strLower exp then .ok ()
      else .error (.dogenError (integrityMsg alg a.name (hashOf alg c) exp)) := by
  by_cases h : strLower (hashOf alg c) = strLower exp <;>
    simp [Artifact.check_sum, hc, h]

/-- When every declared digest matches, the verification loop checks
each entry and returns success. -/
theorem verifyLoop_ok_all (hashOf : String → List Nat → String) (fs : FileMap)
    (a : Artifact) (c : List Nat) (hc : fs.lookup a.filename = some c)
    (l : List (String × String))
    (hall : ∀ p ∈ l, strLower (hashOf p.1 c) = strLower p.2) :
    verifyLoop hashOf fs a l = (.ok (), l.length) := by
  induction l with
  | nil => simp [verifyLoop]
  | cons p rest ih =>
    obtain ⟨alg, s⟩ := p
    have h1 : strLower (hashOf alg c) = strLower s := hall (alg, s) (by simp)
    have h2 := ih (fun q hq => hall q (List.mem_cons_of_mem _ hq))
    simp [verifyLoop, check_sum_cases hashOf fs a c hc, h1, h2]

/-- When some declared digest mismatches, the verification loop stops
at the first mismatching entry with its `DogenError`. -/
theorem verifyLoop_mismatch (hashOf : String → List Nat → String) (fs : FileMap)
    (a : Artifact) (c : List Nat) (hc : fs.lookup a.filename = some c)
    (l : List (String × String))
    (hmm : ∃ p ∈ l, strLower (hashOf p.1 c) ≠ strLower p.2) :
    ∃ q ∈ l, strLower (hashOf q.1 c) ≠ strLower q.2 ∧
      (verifyLoop hashOf fs a l).1 =
        .error (.dogenError (integrityMsg q.1 a.name (hashOf q.1 c) q.2)) := by
  induction l with
  | nil => simp at hmm
  | cons p rest ih =>
    obtain ⟨alg, s⟩ := p
    by_cases h1 : strLower (hashOf alg c) = strLower s
    · have hrest : ∃ q ∈ rest, strLower (hashOf q.1 c) ≠ strLower q.2 := by
        obtain ⟨q, hq, hne⟩ := hmm
        rcases List.mem_cons.mp hq with rfl | hq'
        · exact absurd h1 hne
        · exact ⟨q, hq', hne⟩
      obtain ⟨q, hq, hne, herr⟩ := ih hrest
      refine ⟨q, List.mem_cons_of_mem _ hq, hne, ?_⟩
      simp [verifyLoop, check_sum_cases hashOf fs a c hc, h1, herr]
    · refine ⟨(alg, s), List.mem_cons_self _ _, h1, ?_⟩
      simp [verifyLoop, check_sum_cases hashOf fs a c hc, h1]

/-- The success value of `verify` under integrity checking is the
mapped success value of the loop over `sums`. -/
theorem verify_fst_eval (hashOf : String → List Nat → String) (fs : FileMap)
    (a : Artifact) :
    (a.verify true hashOf fs).1 =
      ((verifyLoop hashOf fs a a.sums).1).map (fun _ => true) := by
  simp [Artifact.verify]

/-- C3: with integrity checking on and the file readable, `verify`
succeeds exactly when every declared (algorithm, digest) pair matches
the computed digest case-insensitively; otherwise it raises the
`DogenError` of a mismatching pair. -/
theorem verify_succeeds_iff_all_declared_sums_match
    (hashOf : String → List Nat → String) (fs : FileMap) (a : Artifact)
    (c : List Nat) (hc : fs.lookup a.filename = some c) :
    ((a.verify true hashOf fs).1 = .ok true ↔
      ∀ p ∈ a.sums, strLower (hashOf p.1 c) = strLower p.2)
    ∧ ((∃ p ∈ a.sums, strLower (hashOf p.1 c) ≠ strLower p.2) →
        ∃ q ∈ a.sums, strLower (hashOf q.1 c) ≠ strLower q.2 ∧
          (a.verify true hashOf fs).1 =
            .error (.dogenError (integrityMsg q.1 a.name (hashOf q.1 c) q.2))) := by
  by_cases hall : ∀ p ∈ a.sums, strLower (hashOf p.1 c) = strLower p.2
  · have hloop := verifyLoop_ok_all hashOf fs a c hc a.sums hall
    have hok : (a.verify true hashOf fs).1 = .ok true := by
      rw [verify_fst_eval, hloop]
      rfl
    refine ⟨iff_of_true hok hall, fun hmm => ?_⟩
    obtain ⟨q, hq, hne⟩ := hmm
    exact absurd (hall q hq) hne
  · have hmm : ∃ p ∈ a.sums, strLower (hashOf p.1 c) ≠ strLower p.2 := by
      push_neg at hall
      exact hall
    obtain ⟨q, hq, hne, herr⟩ := verifyLoop_mismatch hashOf fs a c hc a.sums hmm
    have hv : (a.verify true hashOf fs).1 =
        .error (.dogenError (integrityMsg q.1 a.name (hashOf q.1 c) q.2)) := by
      rw [verify_fst_eval, herr]
      rfl
    refine ⟨iff_of_false (by rw [hv]; exact fun h => Except.noConfusion h) hall,
      fun _ => ⟨q, hq, hne, hv⟩⟩

/-- A digest oracle agreeing with the declared sums of the sample
artifact up to case. -/
def sampleHash : String → List Nat → String :=
  fun alg _ => if alg = "sha1" then "cd" else "ab"

/-- A digest oracle mismatching the declared sha1 sum of the sample
artifact. -/
def badHash : String → List Nat → String :=
  fun alg _ => if alg = "sha1" then "ee" else "ab"

/-- C3 witness: the sample artifact verifies against `sampleHash`
(case-insensitively), and fails against `badHash` with the recorded
mismatch message. -/
theorem verify_succeeds_iff_all_declared_sums_match_witness :
    (sampleArtifact.verify true sampleHash [("t/a.tar", [1])]).1 = .ok true
    ∧ ∃ q ∈ sampleArtifact.sums,
        (sampleArtifact.verify true badHash [("t/a.tar", [1])]).1 =
          .error (.dogenError (integrityMsg q.1 sampleArtifact.name
            (badHash q.1 [1]) q.2)) := by
  refine ⟨(verify_succeeds_iff_all_declared_sums_match sampleHash [("t/a.tar", [1])]
    sampleArtifact [1] (by decide)).1.mpr (by decide), ?_⟩
  obtain ⟨q, hq, _, hv⟩ := (verify_succeeds_iff_all_declared_sums_match badHash
    [("t/a.tar", [1])] sampleArtifact [1] (by decide)).2
    ⟨("sha1", "CD"), by decide, by decide⟩
  exact ⟨q, hq, hv⟩

/-- C1: an artifact with declared checksums, fetched fresh (destination
absent, URL resolved, server answering 200) and then verified as the
orchestrator does: when every declared digest matches, the operation
succeeds having checked exactly one digest per declared checksum; when
any declared digest mismatches, the whole operation fails with that
mismatching `DogenError` — no partial acceptance. -/
theorem fetch_fresh_download_checks_every_checksum (cache target_dir : String)
    (hashOf : String → List Nat → String) (http : String → HttpResponse)
    (fs : FileMap) (a : Artifact) (u : String)
    (hfile : a.filename = pathJoin target_dir a.name)
    (hsums : a.sums ≠ [])
    (habsent : fs.lookup (pathJoin target_dir a.name) = none)
    (hurl : (a.generate_url cache).url = some u)
    (hstatus : (http u).status_code = 200) :
    ((∀ p ∈ a.sums, strLower (hashOf p.1 ((http u).content)) = strLower p.2) →
      fetch_and_verify cache target_dir true hashOf http fs a =
        { outcome := .ok true
          fs := fs.write (pathJoin target_dir a.name) ((http u).content)
          network := 1, checks := a.sums.length })
    ∧ ((∃ p ∈ a.sums, strLower (hashOf p.1 ((http u).content)) ≠ strLower p.2) →
        ∃ q ∈ a.sums, strLower (hashOf q.1 ((http u).content)) ≠ strLower q.2 ∧
          (fetch_and_verify cache target_dir true hashOf http fs a).outcome =
            .error (.dogenError (integrityMsg q.1 a.name
              (hashOf q.1 ((http u).content)) q.2))) := by
  have hflds := generate_url_fields cache a
  have hname : (a.generate_url cache).name = a.name := hflds.1
  have hsums1 : (a.generate_url cache).sums = a.sums := hflds.2.1
  have hfn : (a.generate_url cache).filename = a.filename := hflds.2.2
  have hfetch : a.fetch cache target_dir http fs =
      { outcome := .ok (a.generate_url cache)
        fs := fs.write (pathJoin target_dir a.name) ((http u).content)
        network := 1 } := by
    simp [Artifact.fetch, hname, habsent, hurl, hstatus]
  have hlk : (fs.write (pathJoin target_dir a.name) ((http u).content)).lookup
      ((a.generate_url cache).filename) = some ((http u).content) := by
    rw [hfn, hfile]
    simp [FileMap.write, List.lookup]
  constructor
  · intro hall
    have hloop := verifyLoop_ok_all hashOf
      (fs.write (pathJoin target_dir a.name) ((http u).content))
      (a.generate_url cache) ((http u).content) hlk a.sums hall
    have hver : (a.generate_url cache).verify true hashOf
        (fs.write (pathJoin target_dir a.name) ((http u).content)) =
          (.ok true, a.sums.length) := by
      simp [Artifact.verify, hsums1, hloop]
      rfl
    simp [fetch_and_verify, hfetch, habsent, hver]
  · intro hmm
    obtain ⟨q, hq, hne, herr⟩ := verifyLoop_mismatch hashOf
      (fs.write (pathJoin target_dir a.name) ((http u).content))
      (a.generate_url cache) ((http u).content) hlk a.sums hmm
    rw [hname] at herr
    refine ⟨q, hq, hne, ?_⟩
    have hver : ((a.generate_url cache).verify true hashOf
        (fs.write (pathJoin target_dir a.name) ((http u).content))).1 =
          .error (.dogenError (integrityMsg q.1 a.name
            (hashOf q.1 ((http u).content)) q.2)) := by
      rw [verify_fst_eval, hsums1, herr]
      rfl
    simp [fetch_and_verify, hfetch, habsent, hver]

/-- C1 witness: the sample artifact (sha1 and md5 declared) fetched
fresh from a 200 server and verified with the matching digest oracle:
exactly two checks, one per declared checksum. -/
theorem fetch_fresh_download_checks_every_checksum_witness :
    fetch_and_verify "" "t" true sampleHash
        (fun _ => { status_code := 200, content := [1] }) [] sampleArtifact =
      { outcome := .ok true
        fs := FileMap.write [] (pathJoin "t" sampleArtifact.name) [1]
        network := 1, checks := sampleArtifact.sums.length } :=
  (fetch_fresh_download_checks_every_checksum "" "t" sampleHash
    (fun _ => { status_code := 200, content := [1] }) [] sampleArtifact
    "http://x/a.tar" (by decide) (by decide) (by decide) (by decide) (by decide)).1
    (by decide)

/-- Subtree containment is transitive. -/
theorem isUnder_trans {a b c : Path} (h1 : isUnder a b = true)
    (h2 : isUnder b c = true) : isUnder a c = true := by
  induction a generalizing b c with
  | nil => rfl
  | cons x xs ih =>
    cases b with
    | nil => simp [isUnder] at h1
    | cons y ys =>
      cases c with
      | nil => simp [isUnder] at h2
      | cons z zs =>
        simp only [isUnder, Bool.and_eq_true, beq_iff_eq] at h1 h2 ⊢
        exact ⟨h1.1.trans h2.1, ih h1.2 h2.2⟩

/-- Membership after `rmtree`: survive iff outside the removed
subtree. -/
theorem mem_rmtree {fs : PathSet} {d p : Path} :
    p ∈ rmtree fs d ↔ p ∈ fs ∧ isUnder d p = false := by
  simp [rmtree, List.mem_filter]

/-- The cleanup fold over any directory list: under ancestor-closure of
the file system with respect to the listed directories, a path survives
exactly when it lies under none of them. -/
theorem cleanup_fold_mem (dirs : List Path) : ∀ (fs : PathSet),
    (∀ d ∈ dirs, ∀ p ∈ fs, isUnder d p = true → d ∈ fs) → ∀ p,
    (p ∈ dirs.foldl (fun acc d => if d ∈ acc then rmtree acc d else acc) fs ↔
      p ∈ fs ∧ ∀ d ∈ dirs, isUnder d p = false) := by
  induction dirs with
  | nil => intro fs _ p; simp
  | cons d rest ih =>
    intro fs hclosed p
    simp only [List.foldl_cons]
    by_cases hd : d ∈ fs
    · rw [if_pos hd]
      have hcl' : ∀ d' ∈ rest, ∀ q ∈ rmtree fs d, isUnder d' q = true →
          d' ∈ rmtree fs d := by
        intro d' hd' q hq hu
        obtain ⟨hqfs, hqd⟩ := mem_rmtree.mp hq
        have hdfs' : d' ∈ fs := hclosed d' (List.mem_cons_of_mem _ hd') q hqfs hu
        refine mem_rmtree.mpr ⟨hdfs', ?_⟩
        by_contra hcon
        rw [Bool.not_eq_false] at hcon
        have : isUnder d q = true := isUnder_trans hcon hu
        rw [hqd] at this
        exact Bool.noConfusion this
      rw [ih (rmtree fs d) hcl' p]
      constructor
      · rintro ⟨hpr, hrest⟩
        obtain ⟨hpfs, hpd⟩ := mem_rmtree.mp hpr
        refine ⟨hpfs, fun d' hd' => ?_⟩
        rcases List.mem_cons.mp hd' with rfl | h'
        · exact hpd
        · exact hrest d' h'
      · rintro ⟨hpfs, hall⟩
        exact ⟨mem_rmtree.mpr ⟨hpfs, hall d (List.mem_cons_self _ _)⟩,
          fun d' hd' => hall d' (List.mem_cons_of_mem _ hd')⟩
    · rw [if_neg hd]
      have hcl' : ∀ d' ∈ rest, ∀ q ∈ fs, isUnder d' q = true → d' ∈ fs :=
        fun d' hd' => hclosed d' (List.mem_cons_of_mem _ hd')
      rw [ih fs hcl' p]
      constructor
      · rintro ⟨hpfs, hrest⟩
        refine ⟨hpfs, fun d' hd' => ?_⟩
        rcases List.mem_cons.mp hd' with rfl | h'
        · by_contra hcon
          rw [Bool.not_eq_false] at hcon
          exact hd (hclosed d' (List.mem_cons_self _ _) p hpfs hcon)
        · exact hrest d' h'
      · rintro ⟨hpfs, hall⟩
        exact ⟨hpfs, fun d' hd' => hall d' (List.mem_cons_of_mem _ hd')⟩

/-- C8: on a file system closed under ancestors of the three cleanup
roots, `cleanup` removes exactly the subtrees `target/image/modules`,
`target/image/repos` and `target/repo` (when present), leaving every
path outside them untouched. -/
theorem cleanup_removes_exactly_the_three_subtrees (fs : PathSet) (target : Path)
    (hclosed : ∀ d ∈ dirs_to_clean target, ∀ p ∈ fs, isUnder d p = true → d ∈ fs)
    (p : Path) :
    p ∈ cleanup fs target ↔
      p ∈ fs ∧ ∀ d ∈ dirs_to_clean target, isUnder d p = false :=
  cleanup_fold_mem (dirs_to_clean target) fs hclosed p

/-- A sample output tree: the three dirty subtrees plus unrelated
entries. -/
def sampleTree : PathSet :=
  [["o"], ["o", "image"], ["o", "image", "modules"],
   ["o", "image", "modules", "m1"], ["o", "image", "repos"], ["o", "repo"],
   ["o", "repo", "x"], ["o", "Dockerfile"]]

/-- C8 witness: on the sample tree, cleanup keeps the unrelated
`o/Dockerfile` and drops `o/image/modules/m1`. -/
theorem cleanup_removes_exactly_the_three_subtrees_witness :
    ["o", "Dockerfile"] ∈ cleanup sampleTree ["o"]
    ∧ ["o", "image", "modules", "m1"] ∉ cleanup sampleTree ["o"] := by
  constructor
  · exact (cleanup_removes_exactly_the_three_subtrees sampleTree ["o"]
      (by decide) _).mpr ⟨by decide, by decide⟩
  · intro hmem
    have h := (cleanup_removes_exactly_the_three_subtrees sampleTree ["o"]
      (by decide) _).mp hmem
    exact absurd (h.2 ["o", "image", "modules"] (by decide)) (by decide)

end Dogen
